import Mathlib

/-!
Shallow embedding of the bitpulse/spoofing-analytics core, translated from
`src/models/order_book.py`, `src/tracking/whale_tracker.py` and
`src/tracking/spoof_detector.py`.

Modelling conventions:
* Python floats are modelled as `ℚ` (the claims are about the algebraic and
  control-flow structure of the computations, not float rounding).
* Python dicts are modelled as insertion-ordered association lists with
  unique keys (`alookup`/`aset`/`aerase` below mirror `d.get`, `d[k] = v`
  and `d.pop(k)`; Python dicts preserve insertion order).
* The wall clock `time.time()` is passed in explicitly as a parameter `now`
  (seconds as `ℚ`).
* Python sets of whale ids (`whale_index[symbol][side]`) are modelled as
  lists without duplicates, iterated in insertion order (CPython set
  iteration order is unspecified; no claim depends on the tie-breaking
  order between several simultaneously matching whales).
-/

namespace SpoofingAnalytics

/-- Association-list lookup with Python dict semantics (keys unique,
`alookup m k = m.get(k)`). -/
def alookup {α : Type} (m : List (String × α)) (k : String) : Option α :=
  match m with
  | [] => none
  | (k2, v) :: rest => if k2 = k then some v else alookup rest k

/-- Python dict write `m[k] = v`: replace the binding in place if the key
exists, else append (insertion order preserved). -/
def aset {α : Type} (m : List (String × α)) (k : String) (v : α) : List (String × α) :=
  match m with
  | [] => [(k, v)]
  | (k2, v2) :: rest => if k2 = k then (k2, v) :: rest else (k2, v2) :: aset rest k v

/-- Python dict `m.pop(k)`: remove the (unique) binding of `k`. -/
def aerase {α : Type} (m : List (String × α)) (k : String) : List (String × α) :=
  match m with
  | [] => []
  | (k2, v2) :: rest => if k2 = k then rest else (k2, v2) :: aerase rest k

/-- Python `int(q)`: truncation toward zero. -/
def pyInt (q : ℚ) : ℤ := if 0 ≤ q then Int.floor q else Int.ceil q

/-- `statistics.mean` on a rational sample (callers guard against `[]`). -/
def mean (xs : List ℚ) : ℚ := xs.sum / xs.length

/-! ## `src/models/order_book.py` -/

/-- `PriceLevel` dataclass. -/
structure PriceLevel where
  price : ℚ
  size : ℚ
deriving DecidableEq

/-- `PriceLevel.value_usd` property. -/
def PriceLevel.value_usd (l : PriceLevel) : ℚ := l.price * l.size

/-- `OrderBookSnapshot` dataclass, restricted to the fields that
`from_raw_data` actually computes and that downstream code reads.  The
fields `from_raw_data` always initializes to constants (whale lists,
slopes, depth metrics) and the symbol/timestamp/update-id bookkeeping are
omitted: no claim reads them. -/
structure OrderBookSnapshot where
  bids : List PriceLevel
  asks : List PriceLevel
  best_bid : ℚ
  best_bid_size : ℚ
  best_ask : ℚ
  best_ask_size : ℚ
  spread : ℚ
  spread_bps : ℚ
  mid_price : ℚ
  bid_volume_total : ℚ
  ask_volume_total : ℚ
  bid_volume_value : ℚ
  ask_volume_value : ℚ
  volume_imbalance : ℚ
  value_imbalance : ℚ

/-- `OrderBookSnapshot.from_raw_data` (lines 78-156): the raw level lists
arrive already parsed into price/size pairs. -/
def from_raw_data (bids asks : List PriceLevel) : OrderBookSnapshot :=
  let best_bid := match bids with | [] => 0 | l :: _ => l.price
  let best_bid_size := match bids with | [] => 0 | l :: _ => l.size
  let best_ask := match asks with | [] => 0 | l :: _ => l.price
  let best_ask_size := match asks with | [] => 0 | l :: _ => l.size
  let spread := best_ask - best_bid
  let spread_bps := if best_bid > 0 then spread / best_bid * 10000 else 0
  let mid_price := if best_bid > 0 ∧ best_ask > 0 then (best_bid + best_ask) / 2 else 0
  let bid_volume_total := (bids.map PriceLevel.size).sum
  let ask_volume_total := (asks.map PriceLevel.size).sum
  let bid_volume_value := (bids.map PriceLevel.value_usd).sum
  let ask_volume_value := (asks.map PriceLevel.value_usd).sum
  let total_volume := bid_volume_total + ask_volume_total
  let volume_imbalance :=
    if total_volume > 0 then (bid_volume_total - ask_volume_total) / total_volume else 0
  let total_value := bid_volume_value + ask_volume_value
  let value_imbalance :=
    if total_value > 0 then (bid_volume_value - ask_volume_value) / total_value else 0
  { bids := bids, asks := asks, best_bid := best_bid, best_bid_size := best_bid_size,
    best_ask := best_ask, best_ask_size := best_ask_size, spread := spread,
    spread_bps := spread_bps, mid_price := mid_price,
    bid_volume_total := bid_volume_total, ask_volume_total := ask_volume_total,
    bid_volume_value := bid_volume_value, ask_volume_value := ask_volume_value,
    volume_imbalance := volume_imbalance, value_imbalance := value_imbalance }

/-! ## `src/tracking/spoof_detector.py`: market context -/

/-- `MarketContext` dataclass. -/
structure MarketContext where
  avg_order_size : ℚ
  avg_trade_size : ℚ
  recent_volatility : ℚ
  bid_ask_spread_bps : ℚ
  order_book_depth : ℚ
  volume_24h : ℚ
  recent_trade_frequency : ℚ
  liquidity_score : ℚ

/-- `EnhancedSpoofDetector.update_market_context` (lines 117-159).

The detector's `order_history` and `trade_history` deques are created
empty (lines 120-121) and nothing anywhere in the repository ever appends
to them, so the warm branches guarded by `len > 10` and `len > 50` are
dead code: the average order size always bootstraps from the snapshot's
top 20 levels per side (`10000` if both sides are empty), the average
trade size is a tenth of it, volatility is the 2.0 default and the trade
frequency falls back to 1.  `getattr(snapshot, 'volume_24h', 0)` is 0
because `OrderBookSnapshot` has no such attribute.  The function mutates
`self.market_contexts[symbol]`; here it maps the context table to the
updated table. -/
def update_market_context (contexts : List (String × MarketContext))
    (symbol : String) (snapshot : OrderBookSnapshot) :
    List (String × MarketContext) :=
  let all_orders := snapshot.bids.take 20 ++ snapshot.asks.take 20
  let avg_order := if all_orders.length > 0 then mean (all_orders.map PriceLevel.value_usd) else 10000
  let avg_trade := avg_order * (1 / 10)
  let volatility : ℚ := 2
  let depth_score := min (snapshot.bid_volume_total + snapshot.ask_volume_total) 1000000 / 1000000
  let spread_score := max 0 (1 - snapshot.spread_bps / 100)
  let liquidity_score := (depth_score + spread_score) / 2
  aset contexts symbol
    { avg_order_size := avg_order, avg_trade_size := avg_trade,
      recent_volatility := volatility, bid_ask_spread_bps := snapshot.spread_bps,
      order_book_depth := snapshot.bid_volume_total + snapshot.ask_volume_total,
      volume_24h := 0, recent_trade_frequency := 1, liquidity_score := liquidity_score }

/-! ## `src/tracking/whale_tracker.py`: `TrackedWhale` -/

/-- `TrackedWhale` dataclass (lines 19-47).  `min_size_seen` defaults to
`float('inf')` in the source, but every whale is constructed by
`_create_new_whale`, which sets it to the observed size, so the infinite
default is never visible; `disappearances` is a count (`ℕ`),
`size_changes`/`price_moves` are append-only `(timestamp, value)` logs. -/
structure TrackedWhale where
  whale_id : String
  symbol : String
  side : String
  initial_price : ℚ
  initial_size : ℚ
  initial_value_usd : ℚ
  first_seen : ℚ
  last_seen : ℚ
  current_price : ℚ
  current_size : ℚ
  current_value_usd : ℚ
  size_changes : List (ℚ × ℚ)
  price_moves : List (ℚ × ℚ)
  disappearances : ℕ
  total_duration : ℚ
  max_size_seen : ℚ
  min_size_seen : ℚ
  mid_price_on_appearance : ℚ
  percentage_of_book : ℚ
  level : ℕ

/-- `TrackedWhale.update` (lines 49-70): `now` is `time.time()` at the call. -/
def TrackedWhale.update (w : TrackedWhale) (now price size value_usd : ℚ) : TrackedWhale :=
  let size_change_pct :=
    if w.current_size > 0 then |(w.current_size - size) / w.current_size * 100| else 100
  let price_change_pct :=
    if w.current_price > 0 then |(w.current_price - price) / w.current_price * 100| else 100
  let size_changes :=
    if size_change_pct > 5 then w.size_changes ++ [(now, size)] else w.size_changes
  let price_moves :=
    if price_change_pct > 1 / 10 then w.price_moves ++ [(now, price)] else w.price_moves
  { w with
    size_changes := size_changes, price_moves := price_moves,
    current_price := price, current_size := size, current_value_usd := value_usd,
    last_seen := now,
    max_size_seen := max w.max_size_seen size,
    min_size_seen := min w.min_size_seen size }

/-- `TrackedWhale.mark_disappeared` (lines 72-75). -/
def TrackedWhale.mark_disappeared (w : TrackedWhale) : TrackedWhale :=
  { w with
    disappearances := w.disappearances + 1,
    total_duration := w.total_duration + (w.last_seen - w.first_seen) }

/-! ## `src/tracking/spoof_detector.py`: scoring -/

/-- One entry of `EnhancedSpoofDetector.calibrations` (lines 69-97). -/
structure Calibration where
  min_duration : ℚ
  max_duration : ℚ
  size_multiplier : ℚ
  distance_threshold : ℚ
  flickering_threshold : ℕ
  size_variance_threshold : ℚ

/-- `calibrations['HIGH_VOL']`. -/
def HIGH_VOL : Calibration :=
  { min_duration := 5, max_duration := 90, size_multiplier := 10,
    distance_threshold := 15 / 1000, flickering_threshold := 3,
    size_variance_threshold := 35 / 100 }

/-- `calibrations['LOW_VOL']`. -/
def LOW_VOL : Calibration :=
  { min_duration := 15, max_duration := 120, size_multiplier := 100,
    distance_threshold := 5 / 1000, flickering_threshold := 3,
    size_variance_threshold := 3 / 10 }

/-- `calibrations['DEFAULT']`. -/
def DEFAULT_CAL : Calibration :=
  { min_duration := 10, max_duration := 90, size_multiplier := 50,
    distance_threshold := 1 / 100, flickering_threshold := 4,
    size_variance_threshold := 35 / 100 }

/-- `EnhancedSpoofDetector.get_calibration` (lines 107-115). -/
def get_calibration (symbol : String) : Calibration :=
  if symbol = "PEPEUSDT" ∨ symbol = "BONKUSDT" ∨ symbol = "WIFUSDT" ∨
     symbol = "SHIBUSDT" ∨ symbol = "FLOKIUSDT" then HIGH_VOL
  else if symbol = "BTCUSDT" ∨ symbol = "ETHUSDT" ∨ symbol = "USDTUSDT" then LOW_VOL
  else DEFAULT_CAL

/-- Default `MarketContext` used by `calculate_spoof_score` when no context
has been recorded for the symbol (lines 177-188). -/
def default_context : MarketContext :=
  { avg_order_size := 50000, avg_trade_size := 5000, recent_volatility := 2,
    bid_ask_spread_bps := 10, order_book_depth := 1000000, volume_24h := 10000000,
    recent_trade_frequency := 10, liquidity_score := 1 / 2 }

/-- `SpoofScore` dataclass (lines 41-52).  The human-readable `reasons`
strings (pure presentation, built with float formatting) are omitted: no
claim reads them. -/
structure SpoofScore where
  total_score : ℚ
  duration_score : ℚ
  size_pattern_score : ℚ
  distance_score : ℚ
  behavior_score : ℚ
  context_score : ℚ
  confidence_level : String
  pattern_type : String

/-- Duration analysis, `calculate_spoof_score` step 1 (lines 199-217). -/
def duration_score_calc (calib : Calibration) (duration : ℚ) : ℚ :=
  if calib.min_duration ≤ duration ∧ duration ≤ calib.max_duration then
    if 15 ≤ duration ∧ duration ≤ 45 then 25 else 20
  else if duration < calib.min_duration then
    if duration < 5 then 0 else 10
  else 5

/-- `size_variance` as computed in step 2 (line 233); division by a zero
`initial_size` is guarded to 0 in the source. -/
def size_variance_calc (w : TrackedWhale) : ℚ :=
  if w.initial_size > 0 then (w.max_size_seen - w.min_size_seen) / w.initial_size else 0

/-- Size-pattern analysis, step 2 (lines 219-236).  `whale` always has the
`max_size_seen`/`min_size_seen` attributes (they are `TrackedWhale`
fields), so the `hasattr` guard on the variance bonus is always true. -/
def size_pattern_score_calc (w : TrackedWhale) (calib : Calibration)
    (context : MarketContext) : ℚ :=
  let size_multiplier :=
    if context.avg_order_size > 0 then w.current_value_usd / context.avg_order_size else 1
  let base :=
    if size_multiplier > calib.size_multiplier then 20
    else if size_multiplier > calib.size_multiplier * (1 / 2) then 15
    else 5
  if size_variance_calc w > calib.size_variance_threshold then base + 5 else base

/-- Distance-from-mid analysis, step 3 (lines 238-256). -/
def distance_score_calc (w : TrackedWhale) (calib : Calibration) (mid_price : ℚ) : ℚ :=
  if mid_price > 0 ∧ w.current_price > 0 then
    let price_distance := |w.current_price - mid_price| / mid_price
    if 5 / 1000 < price_distance ∧ price_distance < 3 / 100 then
      if price_distance < calib.distance_threshold then 15 else 20
    else if price_distance ≤ 5 / 1000 then 5
    else 10
  else 5

/-- Behavioral analysis, step 4 (lines 258-270).  `whale` always has the
`disappearances` attribute (a `TrackedWhale` field), so that `hasattr`
guard is true; `TrackedWhale` has no `trades_executed` field, so the
never-executed bonus branch (lines 268-270) is dead code. -/
def behavior_score_calc (w : TrackedWhale) (calib : Calibration) : ℚ :=
  if w.disappearances ≥ calib.flickering_threshold then 20
  else if w.disappearances ≥ 2 then 10
  else 0

/-- Market-context analysis, step 5 (lines 272-284). -/
def context_score_calc (context : MarketContext) : ℚ :=
  let base :=
    if context.liquidity_score < 3 / 10 then 10
    else if context.liquidity_score < 1 / 2 then 5
    else 0
  if context.recent_volatility > 5 then base + 5 else base

/-- `EnhancedSpoofDetector.calculate_spoof_score` (lines 161-322), split
into the five numbered sub-score computations above.  `contexts` is the
detector's `market_contexts` table; the `stats` counters the method bumps
are process bookkeeping that no claim reads and are not modelled.  In the
pattern classification, `size_variance` is always bound (the `hasattr`
branch that defines it always runs for a `TrackedWhale`), so the
`'size_variance' in locals()` guard is true. -/
def calculate_spoof_score (contexts : List (String × MarketContext))
    (w : TrackedWhale) (symbol : String) (duration mid_price : ℚ) : SpoofScore :=
  let calib := get_calibration symbol
  let context := (alookup contexts symbol).getD default_context
  let duration_score := duration_score_calc calib duration
  let size_pattern_score := size_pattern_score_calc w calib context
  let distance_score := distance_score_calc w calib mid_price
  let behavior_score := behavior_score_calc w calib
  let context_score := context_score_calc context
  let total_score :=
    duration_score + size_pattern_score + distance_score + behavior_score + context_score
  let confidence :=
    if total_score ≥ 60 then "high"
    else if total_score ≥ 40 then "medium"
    else if total_score ≥ 25 then "low"
    else "unlikely"
  let pattern :=
    if w.disappearances ≥ calib.flickering_threshold then "flickering"
    else if size_variance_calc w > calib.size_variance_threshold then "size_manipulation"
    else if distance_score ≥ 15 ∧ duration_score ≥ 20 then "classic"
    else "unknown"
  { total_score := total_score, duration_score := duration_score,
    size_pattern_score := size_pattern_score, distance_score := distance_score,
    behavior_score := behavior_score, context_score := context_score,
    confidence_level := confidence, pattern_type := pattern }

/-! ## `src/tracking/whale_tracker.py`: `WhaleTracker`

At runtime the tracker's `enhanced_detector` is `None`: the guarded import
at the top of `whale_tracker.py` targets `.enhanced_spoof_detector`, a
module that does not exist (the detector class lives in
`spoof_detector.py`), so the `ImportError` branch runs and every
`self.enhanced_detector and ...` guard is false.  Disappearance handling
therefore always takes the `_is_likely_spoof` fallback and
`get_whale_summary` never attaches enhanced-score fields. -/

structure WhaleTracker where
  price_tolerance : ℚ
  size_tolerance : ℚ
  memory_seconds : ℚ
  active_whales : List (String × List (String × TrackedWhale))
  whale_index : List (String × List (String × List String))
  recent_whales : List (String × List TrackedWhale)
  whale_history : List TrackedWhale
  total_whales_tracked : ℕ
  total_spoofs_detected : ℕ

/-- `WhaleTracker.__init__` with the default arguments (lines 81-104). -/
def WhaleTracker.init : WhaleTracker :=
  { price_tolerance := 1 / 1000, size_tolerance := 1 / 5, memory_seconds := 300,
    active_whales := [], whale_index := [], recent_whales := [], whale_history := [],
    total_whales_tracked := 0, total_spoofs_detected := 0 }

/-- The per-whale acceptance test of `_match_active_whale` (lines 173-192):
the chain of `continue` guards means a whale matches iff its current price
and size are positive and both relative differences are within tolerance. -/
def matches_active (t : WhaleTracker) (w : TrackedWhale) (price size : ℚ) : Bool :=
  (w.current_price > 0) &&
  !(|price - w.current_price| / w.current_price > t.price_tolerance) &&
  (w.current_size > 0) &&
  !(|size - w.current_size| / w.current_size > t.size_tolerance)

/-- The id loop of `_match_active_whale` (lines 168-192): iterate the
side's id index, skip ids with no live entry in the active table
(`if not whale: continue`), return the first acceptable whale. -/
def find_active_match (t : WhaleTracker) (active : List (String × TrackedWhale))
    (price size : ℚ) : List String → Option String
  | [] => none
  | whale_id :: rest =>
    match alookup active whale_id with
    | none => find_active_match t active price size rest
    | some w =>
      if matches_active t w price size then some whale_id
      else find_active_match t active price size rest

/-- `WhaleTracker._match_active_whale` (lines 160-194). -/
def _match_active_whale (t : WhaleTracker) (symbol side : String)
    (price size : ℚ) : Option String :=
  match alookup t.whale_index symbol with
  | none => none
  | some sides =>
    match alookup sides side with
    | none => none
    | some ids => find_active_match t ((alookup t.active_whales symbol).getD []) price size ids

/-- The per-whale acceptance test of `_match_recent_whale` (lines 206-219):
side must agree, price and size must be positive, and both relative
differences must be strictly inside the doubled (looser) tolerances. -/
def matches_recent (t : WhaleTracker) (w : TrackedWhale) (side : String)
    (price size : ℚ) : Bool :=
  (w.side = side) && (w.current_price > 0) && (w.current_size > 0) &&
  (|price - w.current_price| / w.current_price < t.price_tolerance * 2) &&
  (|size - w.current_size| / w.current_size < t.size_tolerance * 2)

/-- `WhaleTracker._match_recent_whale` (lines 196-221).  The method first
rewrites `recent_whales[symbol]` in place, keeping only entries whose
`last_seen` is within the memory window, then scans the cleaned buffer;
the returned tracker carries the cleaned buffer. -/
def _match_recent_whale (t : WhaleTracker) (now : ℚ) (symbol side : String)
    (price size : ℚ) : WhaleTracker × Option String :=
  let cleaned := ((alookup t.recent_whales symbol).getD []).filter
    (fun w => now - w.last_seen < t.memory_seconds)
  ({ t with recent_whales := aset t.recent_whales symbol cleaned },
   (cleaned.find? (fun w => matches_recent t w side price size)).map TrackedWhale.whale_id)

/-- `WhaleTracker._reactivate_whale` (lines 223-237): pop the whale from
the recent buffer, put it back into the active table and increment its
disappearance counter.  The `none` result is unreachable from
`identify_whale` (the id always comes from the cleaned buffer); on that
path the Python method would raise `AttributeError` on `None`. -/
def _reactivate_whale (t : WhaleTracker) (symbol whale_id : String) :
    WhaleTracker × Option TrackedWhale :=
  let rl := (alookup t.recent_whales symbol).getD []
  match rl.find? (fun w => w.whale_id = whale_id) with
  | none => (t, none)
  | some w =>
    let rl2 := rl.eraseP (fun w2 => w2.whale_id = whale_id)
    let w2 := { w with disappearances := w.disappearances + 1 }
    ({ t with
        recent_whales := aset t.recent_whales symbol rl2,
        active_whales := aset t.active_whales symbol
          (aset ((alookup t.active_whales symbol).getD []) whale_id w2) },
     some w2)

/-- `WhaleTracker._create_new_whale` (lines 239-275).  The generated id is
`f"{symbol}_{side}_{int(price)}_{timestamp}"` with `timestamp =
int(time.time() * 1000)`; the dataclass defaults set `first_seen` and
`last_seen` to creation time.  The id is added to the side index only for
the keys the index was initialized with (`'bid'`/`'ask'`); the index is a
set, so a colliding id is not duplicated. -/
def _create_new_whale (t : WhaleTracker) (now : ℚ) (symbol side : String)
    (price size value_usd percentage_of_book : ℚ) (level : ℕ) (mid_price : ℚ) :
    String × WhaleTracker :=
  let timestamp := pyInt (now * 1000)
  let whale_id :=
    symbol ++ "_" ++ side ++ "_" ++ toString (pyInt price) ++ "_" ++ toString timestamp
  let whale : TrackedWhale :=
    { whale_id := whale_id, symbol := symbol, side := side,
      initial_price := price, initial_size := size, initial_value_usd := value_usd,
      first_seen := now, last_seen := now,
      current_price := price, current_size := size, current_value_usd := value_usd,
      size_changes := [], price_moves := [], disappearances := 0, total_duration := 0,
      max_size_seen := size, min_size_seen := size,
      mid_price_on_appearance := mid_price, percentage_of_book := percentage_of_book,
      level := level }
  let active2 := aset ((alookup t.active_whales symbol).getD []) whale_id whale
  let sides := (alookup t.whale_index symbol).getD []
  let sides2 :=
    match alookup sides side with
    | none => sides
    | some ids => aset sides side (if whale_id ∈ ids then ids else ids ++ [whale_id])
  (whale_id,
   { t with
      active_whales := aset t.active_whales symbol active2,
      whale_index := aset t.whale_index symbol sides2,
      total_whales_tracked := t.total_whales_tracked + 1 })

/-- `WhaleTracker.identify_whale` (lines 113-158): try the active whales,
then the recently disappeared ones (reactivating on a hit), else create.
The two `none` fallbacks mirror states the source cannot reach (the
matchers only return ids that are present). -/
def identify_whale (t0 : WhaleTracker) (now : ℚ) (symbol side : String)
    (price size value_usd percentage_of_book : ℚ) (level : ℕ) (mid_price : ℚ) :
    String × WhaleTracker :=
  let t :=
    if (alookup t0.active_whales symbol).isSome then t0
    else
      { t0 with
        active_whales := aset t0.active_whales symbol [],
        recent_whales := aset t0.recent_whales symbol [],
        whale_index := aset t0.whale_index symbol [("bid", []), ("ask", [])] }
  match _match_active_whale t symbol side price size with
  | some whale_id =>
    let active := (alookup t.active_whales symbol).getD []
    match alookup active whale_id with
    | some w =>
      let w2 := w.update now price size value_usd
      (whale_id, { t with active_whales := aset t.active_whales symbol (aset active whale_id w2) })
    | none => (whale_id, t)
  | none =>
    match _match_recent_whale t now symbol side price size with
    | (t1, some whale_id) =>
      match _reactivate_whale t1 symbol whale_id with
      | (t2, some w) =>
        let w2 := w.update now price size value_usd
        let active := (alookup t2.active_whales symbol).getD []
        (whale_id,
         { t2 with active_whales := aset t2.active_whales symbol (aset active whale_id w2) })
      | (t2, none) => (whale_id, t2)
    | (t1, none) =>
      _create_new_whale t1 now symbol side price size value_usd percentage_of_book level mid_price

/-- `WhaleTracker._is_likely_spoof` (lines 325-342).  On a whale with five
or more logged size changes and `initial_size = 0` the Python code would
raise `ZeroDivisionError`; `_create_new_whale` always sets `initial_size`
to the observed size.  (In `ℚ`, division by zero yields 0.) -/
def _is_likely_spoof (w : TrackedWhale) (duration : ℚ) : Bool :=
  if 5 < duration ∧ duration < 60 ∧ w.current_value_usd ≥ 5000000 then true
  else if w.disappearances ≥ 3 ∧ duration < 120 then true
  else if w.size_changes.length > 0 ∧ w.size_changes.length ≥ 5 then
    if (w.max_size_seen - w.min_size_seen) / w.initial_size > 1 / 2 then true else false
  else false

/-- `WhaleTracker.process_snapshot_whales` (lines 277-323).  The first
loop marks every active whale of the symbol that is not in
`current_whale_ids` as disappeared and runs spoof detection on the marked
whale (so detection sees the already-incremented counter); the second loop
pops the marked whales from the active table and appends them, in table
order, to the recent buffer and to the unbounded `whale_history` log.  The
local `now` the source computes is never used. -/
def process_snapshot_whales (t : WhaleTracker) (symbol : String)
    (current_whale_ids : List String) : WhaleTracker :=
  match alookup t.active_whales symbol with
  | none => t
  | some active =>
    let marked := active.map (fun p =>
      if p.1 ∈ current_whale_ids then p else (p.1, p.2.mark_disappeared))
    let gone := marked.filter (fun p => p.1 ∉ current_whale_ids)
    let spoofs :=
      (gone.filter (fun p => _is_likely_spoof p.2 (p.2.last_seen - p.2.first_seen))).length
    let remaining := marked.filter (fun p => p.1 ∈ current_whale_ids)
    let moved := gone.map Prod.snd
    { t with
      active_whales := aset t.active_whales symbol remaining,
      recent_whales := aset t.recent_whales symbol
        (((alookup t.recent_whales symbol).getD []) ++ moved),
      whale_history := t.whale_history ++ moved,
      total_spoofs_detected := t.total_spoofs_detected + spoofs }

/-- The record `get_whale_summary` builds (lines 382-404).  The
`first_seen`/`last_seen` ISO strings keep their raw timestamps here; the
enhanced-score fields are never attached (`enhanced_detector` is `None`). -/
structure WhaleSummary where
  whale_id : String
  symbol : String
  side : String
  initial_price : ℚ
  current_price : ℚ
  initial_size : ℚ
  current_size : ℚ
  initial_value_usd : ℚ
  current_value_usd : ℚ
  duration_seconds : ℚ
  size_changes_count : ℕ
  disappearances : ℕ
  max_size_seen : ℚ
  min_size_seen : ℚ
  size_variance_pct : ℚ
  is_active : Bool
  likely_spoof : Bool
  percentage_of_book : ℚ
  level : ℕ
  first_seen : ℚ
  last_seen : ℚ

/-- `WhaleTracker.get_whale_summary` (lines 344-409): look the id up in
the symbol's active table, then scan the recent buffer; `None` when both
miss.  A whale that is only in `whale_history` is not consulted. -/
def get_whale_summary (t : WhaleTracker) (now : ℚ) (whale_id symbol : String) :
    Option WhaleSummary :=
  let activeMap := (alookup t.active_whales symbol).getD []
  let whaleOpt :=
    match alookup activeMap whale_id with
    | some w => some w
    | none => ((alookup t.recent_whales symbol).getD []).find? (fun w => w.whale_id = whale_id)
  match whaleOpt with
  | none => none
  | some w =>
    let is_active := (alookup activeMap whale_id).isSome
    let duration :=
      if is_active then w.total_duration + (now - w.first_seen) else w.total_duration
    some
      { whale_id := w.whale_id, symbol := w.symbol, side := w.side,
        initial_price := w.initial_price, current_price := w.current_price,
        initial_size := w.initial_size, current_size := w.current_size,
        initial_value_usd := w.initial_value_usd, current_value_usd := w.current_value_usd,
        duration_seconds := duration,
        size_changes_count := w.size_changes.length,
        disappearances := w.disappearances,
        max_size_seen := w.max_size_seen, min_size_seen := w.min_size_seen,
        size_variance_pct :=
          if w.initial_size > 0 then (w.max_size_seen - w.min_size_seen) / w.initial_size * 100
          else 0,
        is_active := is_active,
        likely_spoof := _is_likely_spoof w duration,
        percentage_of_book := w.percentage_of_book, level := w.level,
        first_seen := w.first_seen, last_seen := w.last_seen }

/-! ## General lemmas about the dict model -/

theorem alookup_aset_self {α : Type} (m : List (String × α)) (k : String) (v : α) :
    alookup (aset m k v) k = some v := by
  induction m with
  | nil => simp [aset, alookup]
  | cons p rest ih =>
    by_cases h : p.1 = k
    · simp [aset, alookup, h]
    · simp [aset, alookup, h, ih]

theorem length_filter_fst_map {α β : Type} (l : List (α × β)) (f : α × β → α × β)
    (p : α → Bool) (hf : ∀ x, (f x).1 = x.1) :
    ((l.map f).filter (fun q => p q.1)).length = (l.filter (fun q => p q.1)).length := by
  induction l with
  | nil => simp
  | cons x xs ih =>
    simp only [List.map_cons, List.filter_cons, hf x]
    by_cases h : p x.1
    · simp [h, ih]
    · simp [h, ih]

/-! ## Claim theorems -/

/-- Claim C5 counterexample: on the raw update with bid side `[(100, 1)]`
and an empty ask side, `from_raw_data` yields `spread = -100` and
`spread_bps = -10000`, not 0 as claimed (only `mid_price` resolves to 0). -/
theorem c5_counterexample :
    (from_raw_data [⟨100, 1⟩] []).spread = -100 ∧
    (from_raw_data [⟨100, 1⟩] []).spread_bps = -10000 ∧
    (from_raw_data [⟨100, 1⟩] []).mid_price = 0 ∧
    ¬((from_raw_data [⟨100, 1⟩] []).spread = 0 ∧ (from_raw_data [⟨100, 1⟩] []).spread_bps = 0) := by
  refine ⟨by norm_num [from_raw_data], by norm_num [from_raw_data],
    by norm_num [from_raw_data], ?_⟩
  intro h
  have h2 := h.1
  norm_num [from_raw_data] at h2

/-- Claim C5 (amended): for a raw update whose ask side is empty,
`mid_price` resolves to 0 without error, but `spread` resolves to
`-bestBid` and `spread_bps` to `-10000` whenever the bid side is non-empty
with a positive best bid; all three resolve to 0 only when the bid side is
empty as well. -/
theorem c5_empty_ask_amended (l : PriceLevel) (bids : List PriceLevel) (hp : l.price > 0) :
    (from_raw_data (l :: bids) []).mid_price = 0 ∧
    (from_raw_data (l :: bids) []).spread = -l.price ∧
    (from_raw_data (l :: bids) []).spread_bps = -10000 ∧
    (from_raw_data [] []).spread = 0 ∧
    (from_raw_data [] []).spread_bps = 0 ∧
    (from_raw_data [] []).mid_price = 0 := by
  have hne : l.price ≠ 0 := ne_of_gt hp
  refine ⟨?_, ?_, ?_, by norm_num [from_raw_data], by norm_num [from_raw_data],
    by norm_num [from_raw_data]⟩
  · simp [from_raw_data]
  · simp [from_raw_data]
  · simp only [from_raw_data, if_pos hp]
    field_simp

/-- Claim C5 witness: the amended statement evaluated at the concrete bid
level `(100, 1)`. -/
theorem c5_empty_ask_amended_witness :
    (from_raw_data [⟨100, 1⟩] []).mid_price = 0 ∧
    (from_raw_data [⟨100, 1⟩] []).spread = -(100 : ℚ) ∧
    (from_raw_data [⟨100, 1⟩] []).spread_bps = -10000 ∧
    (from_raw_data [] []).spread = 0 ∧
    (from_raw_data [] []).spread_bps = 0 ∧
    (from_raw_data [] []).mid_price = 0 :=
  c5_empty_ask_amended ⟨100, 1⟩ [] (by norm_num)

/-- Claim C8 counterexample: a snapshot with an empty ask side has
`spread_bps = -10000`, and the market context then stores
`liquidity_score = 50.51`, far outside `[0, 1]`. -/
theorem c8_counterexample :
    ((alookup (update_market_context [] "X" (from_raw_data [⟨100, 20000⟩] [])) "X").map
      MarketContext.liquidity_score) = some (5051 / 100) ∧
    ¬((5051 : ℚ) / 100 ≤ 1) := by
  constructor
  · norm_num [update_market_context, from_raw_data, aset, alookup, PriceLevel.value_usd, mean]
  · norm_num

/-- Claim C8 (amended): `update_market_context` stores exactly
`liquidityScore = (min(totalDepth, cap)/cap + max(0, 1 - spreadBps/100))/2`
with `cap = 1,000,000`, and that value lies in `[0, 1]` whenever the
snapshot's total depth is non-negative and its `spread_bps` is
non-negative; a snapshot with an empty ask side and non-empty bid side has
`spread_bps = -10000` and pushes the score above 1. -/
theorem c8_liquidity_amended (contexts : List (String × MarketContext))
    (symbol : String) (s : OrderBookSnapshot)
    (hd : 0 ≤ s.bid_volume_total + s.ask_volume_total)
    (hs : 0 ≤ s.spread_bps) :
    ∃ ctx, alookup (update_market_context contexts symbol s) symbol = some ctx ∧
      ctx.liquidity_score =
        (min (s.bid_volume_total + s.ask_volume_total) 1000000 / 1000000 +
          max 0 (1 - s.spread_bps / 100)) / 2 ∧
      0 ≤ ctx.liquidity_score ∧ ctx.liquidity_score ≤ 1 := by
  refine ⟨_, alookup_aset_self _ _ _, rfl, ?_, ?_⟩
  · have h1 : (0 : ℚ) ≤ min (s.bid_volume_total + s.ask_volume_total) 1000000 :=
      le_min hd (by norm_num)
    have h2 : (0 : ℚ) ≤ max 0 (1 - s.spread_bps / 100) := le_max_left _ _
    positivity
  · have h1 : min (s.bid_volume_total + s.ask_volume_total) 1000000 ≤ (1000000 : ℚ) :=
      min_le_right _ _
    have h2 : max 0 (1 - s.spread_bps / 100) ≤ (1 : ℚ) := by
      apply max_le
      · norm_num
      · have : (0 : ℚ) ≤ s.spread_bps / 100 := by positivity
        linarith
    have h3 : min (s.bid_volume_total + s.ask_volume_total) 1000000 / 1000000 ≤ (1 : ℚ) := by
      rw [div_le_one (by norm_num : (0 : ℚ) < 1000000)]
      exact h1
    linarith

/-- Claim C8 witness: the amended statement evaluated on the snapshot of
the two-sided book `bids = [(100, 1)]`, `asks = [(101, 1)]`. -/
theorem c8_liquidity_amended_witness :
    ∃ ctx, alookup (update_market_context [] "BTCUSDT" (from_raw_data [⟨100, 1⟩] [⟨101, 1⟩]))
        "BTCUSDT" = some ctx ∧
      ctx.liquidity_score =
        (min ((from_raw_data [⟨100, 1⟩] [⟨101, 1⟩]).bid_volume_total +
            (from_raw_data [⟨100, 1⟩] [⟨101, 1⟩]).ask_volume_total) 1000000 / 1000000 +
          max 0 (1 - (from_raw_data [⟨100, 1⟩] [⟨101, 1⟩]).spread_bps / 100)) / 2 ∧
      0 ≤ ctx.liquidity_score ∧ ctx.liquidity_score ≤ 1 :=
  c8_liquidity_amended [] "BTCUSDT" (from_raw_data [⟨100, 1⟩] [⟨101, 1⟩])
    (by norm_num [from_raw_data]) (by norm_num [from_raw_data])

/-- Claim C9: `TrackedWhale.update` is total; a zero `current_size`
(resp. `current_price`) makes the relative change default to 100%, which
exceeds the 5% (resp. 0.1%) significance threshold, so a size-change
(resp. price-move) log entry is appended; and the current
price/size/value, `last_seen`, `max_size_seen` and `min_size_seen` are
refreshed. -/
theorem c9_update_zero_guard_and_refresh (w : TrackedWhale) (now price size value_usd : ℚ)
    (hs : w.current_size = 0) (hp : w.current_price = 0) :
    (w.update now price size value_usd).size_changes = w.size_changes ++ [(now, size)] ∧
    (w.update now price size value_usd).price_moves = w.price_moves ++ [(now, price)] ∧
    (w.update now price size value_usd).current_price = price ∧
    (w.update now price size value_usd).current_size = size ∧
    (w.update now price size value_usd).current_value_usd = value_usd ∧
    (w.update now price size value_usd).last_seen = now ∧
    (w.update now price size value_usd).max_size_seen = max w.max_size_seen size ∧
    (w.update now price size value_usd).min_size_seen = min w.min_size_seen size := by
  refine ⟨?_, ?_, rfl, rfl, rfl, rfl, rfl, rfl⟩
  · norm_num [TrackedWhale.update, hs]
  · norm_num [TrackedWhale.update, hp]

/-- Claim C9 witness: the update of a concrete whale whose current price
and size are both 0. -/
theorem c9_update_zero_guard_witness :
    let w : TrackedWhale :=
      { whale_id := "W", symbol := "BTC", side := "bid",
        initial_price := 1, initial_size := 1, initial_value_usd := 1,
        first_seen := 0, last_seen := 0,
        current_price := 0, current_size := 0, current_value_usd := 0,
        size_changes := [], price_moves := [], disappearances := 0, total_duration := 0,
        max_size_seen := 1, min_size_seen := 1,
        mid_price_on_appearance := 0, percentage_of_book := 0, level := 0 }
    (w.update 7 2 3 6).size_changes = w.size_changes ++ [(7, 3)] ∧
    (w.update 7 2 3 6).price_moves = w.price_moves ++ [(7, 2)] ∧
    (w.update 7 2 3 6).current_price = 2 ∧
    (w.update 7 2 3 6).current_size = 3 ∧
    (w.update 7 2 3 6).current_value_usd = 6 ∧
    (w.update 7 2 3 6).last_seen = 7 ∧
    (w.update 7 2 3 6).max_size_seen = max w.max_size_seen 3 ∧
    (w.update 7 2 3 6).min_size_seen = min w.min_size_seen 3 :=
  c9_update_zero_guard_and_refresh _ 7 2 3 6 rfl rfl

/-- Claim C10: `get_whale_summary` returns `None` exactly when the whale
id is neither a key of the symbol's active table nor the id of a whale in
the symbol's recently-disappeared buffer; the historical log is never
consulted (replacing it changes nothing). -/
theorem c10_summary_none_iff (t : WhaleTracker) (now : ℚ) (whale_id symbol : String) :
    (get_whale_summary t now whale_id symbol = none ↔
      alookup ((alookup t.active_whales symbol).getD []) whale_id = none ∧
      ∀ w ∈ (alookup t.recent_whales symbol).getD [], w.whale_id ≠ whale_id) ∧
    ∀ h2 : List TrackedWhale,
      get_whale_summary { t with whale_history := h2 } now whale_id symbol =
        get_whale_summary t now whale_id symbol := by
  constructor
  · unfold get_whale_summary
    cases ha : alookup ((alookup t.active_whales symbol).getD []) whale_id with
    | some w => simp [ha]
    | none =>
      cases hf : ((alookup t.recent_whales symbol).getD []).find?
          (fun w => w.whale_id = whale_id) with
      | some w =>
        simp only [ha, hf]
        have hmem := List.find?_some hf
        have hin := List.mem_of_find?_eq_some hf
        simp only [decide_eq_true_eq] at hmem
        simp
        exact ⟨w, hin, hmem⟩
      | none =>
        simp only [ha, hf]
        rw [List.find?_eq_none] at hf
        simp only [decide_eq_true_eq] at hf
        simp
        exact hf
  · intro h2
    rfl

/-- Claim C10 witness: the characterization applied to the empty tracker
and an arbitrary concrete id. -/
theorem c10_summary_none_iff_witness :
    (get_whale_summary WhaleTracker.init 0 "W" "BTC" = none ↔
      alookup ((alookup WhaleTracker.init.active_whales "BTC").getD []) "W" = none ∧
      ∀ w ∈ (alookup WhaleTracker.init.recent_whales "BTC").getD [], w.whale_id ≠ "W") ∧
    ∀ h2 : List TrackedWhale,
      get_whale_summary { WhaleTracker.init with whale_history := h2 } 0 "W" "BTC" =
        get_whale_summary WhaleTracker.init 0 "W" "BTC" :=
  c10_summary_none_iff WhaleTracker.init 0 "W" "BTC"

/-! ## Sub-score range lemmas for the scoring engine -/

theorem duration_score_calc_bounds (calib : Calibration) (duration : ℚ) :
    0 ≤ duration_score_calc calib duration ∧ duration_score_calc calib duration ≤ 25 := by
  unfold duration_score_calc
  split_ifs <;> norm_num

theorem size_pattern_score_calc_bounds (w : TrackedWhale) (calib : Calibration)
    (context : MarketContext) :
    0 ≤ size_pattern_score_calc w calib context ∧
    size_pattern_score_calc w calib context ≤ 25 := by
  unfold size_pattern_score_calc
  dsimp only
  split_ifs <;> norm_num

theorem distance_score_calc_bounds (w : TrackedWhale) (calib : Calibration) (mid_price : ℚ) :
    0 ≤ distance_score_calc w calib mid_price ∧ distance_score_calc w calib mid_price ≤ 20 := by
  unfold distance_score_calc
  dsimp only
  split_ifs <;> norm_num

theorem behavior_score_calc_bounds (w : TrackedWhale) (calib : Calibration) :
    0 ≤ behavior_score_calc w calib ∧ behavior_score_calc w calib ≤ 20 := by
  unfold behavior_score_calc
  split_ifs <;> norm_num

theorem context_score_calc_bounds (context : MarketContext) :
    0 ≤ context_score_calc context ∧ context_score_calc context ≤ 15 := by
  unfold context_score_calc
  dsimp only
  split_ifs <;> norm_num

/-- The total score is by definition the sum of the five sub-scores. -/
theorem calculate_spoof_score_total (contexts : List (String × MarketContext))
    (w : TrackedWhale) (symbol : String) (duration mid_price : ℚ) :
    (calculate_spoof_score contexts w symbol duration mid_price).total_score =
      duration_score_calc (get_calibration symbol) duration +
      size_pattern_score_calc w (get_calibration symbol)
        ((alookup contexts symbol).getD default_context) +
      distance_score_calc w (get_calibration symbol) mid_price +
      behavior_score_calc w (get_calibration symbol) +
      context_score_calc ((alookup contexts symbol).getD default_context) := rfl

/-- The context sub-score projection of the full score. -/
theorem calculate_spoof_score_context (contexts : List (String × MarketContext))
    (w : TrackedWhale) (symbol : String) (duration mid_price : ℚ) :
    (calculate_spoof_score contexts w symbol duration mid_price).context_score =
      context_score_calc ((alookup contexts symbol).getD default_context) := rfl

/-- Whale for the C6 counterexample: 4 disappearances, size variance 2,
value 60x the average order, 2% from mid, 30s lifetime. -/
def c6_whale : TrackedWhale :=
  { whale_id := "X_bid_102_1", symbol := "X", side := "bid",
    initial_price := 102, initial_size := 1, initial_value_usd := 3000000,
    first_seen := 0, last_seen := 30, current_price := 102, current_size := 1,
    current_value_usd := 3000000, size_changes := [], price_moves := [],
    disappearances := 4, total_duration := 0, max_size_seen := 2, min_size_seen := 0,
    mid_price_on_appearance := 100, percentage_of_book := 0, level := 0 }

/-- Market context for the C6 counterexample: low liquidity (0.2) and
elevated volatility (6%), so both context bonuses stack. -/
def c6_ctx : MarketContext :=
  { avg_order_size := 50000, avg_trade_size := 5000,
    recent_volatility := 6, bid_ask_spread_bps := 10, order_book_depth := 100,
    volume_24h := 0, recent_trade_frequency := 1, liquidity_score := 1 / 5 }

/-- Claim C6 counterexample: on `c6_whale` in `c6_ctx`, the context
sub-score is 15 > 10 and the total score is 105 > 100. -/
theorem c6_counterexample :
    (calculate_spoof_score [("X", c6_ctx)] c6_whale "X" 30 100).context_score = 15 ∧
    ¬((calculate_spoof_score [("X", c6_ctx)] c6_whale "X" 30 100).context_score ≤ 10) ∧
    (calculate_spoof_score [("X", c6_ctx)] c6_whale "X" 30 100).total_score = 105 ∧
    ¬((calculate_spoof_score [("X", c6_ctx)] c6_whale "X" 30 100).total_score ≤ 100) := by
  have hcal : get_calibration "X" = DEFAULT_CAL := rfl
  have hctx : (alookup [("X", c6_ctx)] "X").getD default_context = c6_ctx := by
    simp [alookup]
  have hcs : (calculate_spoof_score [("X", c6_ctx)] c6_whale "X" 30 100).context_score =
      context_score_calc c6_ctx := by
    rw [calculate_spoof_score_context, hctx]
  have hts : (calculate_spoof_score [("X", c6_ctx)] c6_whale "X" 30 100).total_score = 105 := by
    rw [calculate_spoof_score_total, hctx, hcal]
    norm_num [duration_score_calc, size_pattern_score_calc, distance_score_calc,
      behavior_score_calc, context_score_calc, size_variance_calc,
      DEFAULT_CAL, c6_whale, c6_ctx]
  refine ⟨?_, ?_, hts, by rw [hts]; norm_num⟩
  · rw [hcs]; norm_num [context_score_calc, c6_ctx]
  · rw [hcs]; norm_num [context_score_calc, c6_ctx]

/-- Claim C6 (amended): for every input, `total_score` equals the sum of
the five sub-scores, and duration ∈ [0,25], size-pattern ∈ [0,25],
distance ∈ [0,20], behavior ∈ [0,20] hold as claimed; but the context
sub-score ranges over [0,15] (the low-liquidity bonus of 10 and the
high-volatility bonus of 5 stack), so the total lies in [0,105] rather
than [0,100]. -/
theorem c6_score_sum_and_bounds_amended (contexts : List (String × MarketContext))
    (w : TrackedWhale) (symbol : String) (duration mid_price : ℚ) :
    (calculate_spoof_score contexts w symbol duration mid_price).total_score =
      (calculate_spoof_score contexts w symbol duration mid_price).duration_score +
      (calculate_spoof_score contexts w symbol duration mid_price).size_pattern_score +
      (calculate_spoof_score contexts w symbol duration mid_price).distance_score +
      (calculate_spoof_score contexts w symbol duration mid_price).behavior_score +
      (calculate_spoof_score contexts w symbol duration mid_price).context_score ∧
    (0 ≤ (calculate_spoof_score contexts w symbol duration mid_price).duration_score ∧
      (calculate_spoof_score contexts w symbol duration mid_price).duration_score ≤ 25) ∧
    (0 ≤ (calculate_spoof_score contexts w symbol duration mid_price).size_pattern_score ∧
      (calculate_spoof_score contexts w symbol duration mid_price).size_pattern_score ≤ 25) ∧
    (0 ≤ (calculate_spoof_score contexts w symbol duration mid_price).distance_score ∧
      (calculate_spoof_score contexts w symbol duration mid_price).distance_score ≤ 20) ∧
    (0 ≤ (calculate_spoof_score contexts w symbol duration mid_price).behavior_score ∧
      (calculate_spoof_score contexts w symbol duration mid_price).behavior_score ≤ 20) ∧
    (0 ≤ (calculate_spoof_score contexts w symbol duration mid_price).context_score ∧
      (calculate_spoof_score contexts w symbol duration mid_price).context_score ≤ 15) ∧
    (0 ≤ (calculate_spoof_score contexts w symbol duration mid_price).total_score ∧
      (calculate_spoof_score contexts w symbol duration mid_price).total_score ≤ 105) := by
  have hd := duration_score_calc_bounds (get_calibration symbol) duration
  have hs := size_pattern_score_calc_bounds w (get_calibration symbol)
    ((alookup contexts symbol).getD default_context)
  have hdi := distance_score_calc_bounds w (get_calibration symbol) mid_price
  have hb := behavior_score_calc_bounds w (get_calibration symbol)
  have hc := context_score_calc_bounds ((alookup contexts symbol).getD default_context)
  refine ⟨rfl, hd, hs, hdi, hb, hc, ?_, ?_⟩
  · rw [calculate_spoof_score_total]
    linarith [hd.1, hs.1, hdi.1, hb.1, hc.1]
  · rw [calculate_spoof_score_total]
    linarith [hd.2, hs.2, hdi.2, hb.2, hc.2]

/-- The behavior sub-score is monotone in the disappearance count (for
any flickering threshold). -/
theorem behavior_score_step_monotone (thr a b : ℕ) (h : a ≤ b) :
    (if a ≥ thr then (20 : ℚ) else if a ≥ 2 then 10 else 0) ≤
    (if b ≥ thr then (20 : ℚ) else if b ≥ 2 then 10 else 0) := by
  split_ifs
  all_goals try norm_num
  all_goals exfalso
  all_goals omega

theorem behavior_score_calc_monotone (calib : Calibration) (w1 w2 : TrackedWhale)
    (h : w1.disappearances ≤ w2.disappearances) :
    behavior_score_calc w1 calib ≤ behavior_score_calc w2 calib := by
  unfold behavior_score_calc
  exact behavior_score_step_monotone calib.flickering_threshold
    w1.disappearances w2.disappearances h

/-- Claim C7: holding the whale, symbol, duration, mid price and market
context fixed, a larger disappearance count never yields a smaller
`total_score`: only the behavior sub-score reads the count, and it is
monotone against the flickering threshold. -/
theorem c7_total_score_monotone (contexts : List (String × MarketContext))
    (w : TrackedWhale) (symbol : String) (duration mid_price : ℚ) (d1 d2 : ℕ)
    (h : d1 ≤ d2) :
    (calculate_spoof_score contexts { w with disappearances := d1 }
        symbol duration mid_price).total_score ≤
    (calculate_spoof_score contexts { w with disappearances := d2 }
        symbol duration mid_price).total_score := by
  rw [calculate_spoof_score_total, calculate_spoof_score_total]
  have e1 : size_pattern_score_calc { w with disappearances := d1 } (get_calibration symbol)
      ((alookup contexts symbol).getD default_context) =
      size_pattern_score_calc { w with disappearances := d2 } (get_calibration symbol)
      ((alookup contexts symbol).getD default_context) := rfl
  have e2 : distance_score_calc { w with disappearances := d1 } (get_calibration symbol)
      mid_price =
      distance_score_calc { w with disappearances := d2 } (get_calibration symbol)
      mid_price := rfl
  rw [e1, e2]
  have hb := behavior_score_calc_monotone (get_calibration symbol)
    { w with disappearances := d1 } { w with disappearances := d2 } h
  linarith

/-- Claim C7 witness: the monotonicity theorem applied at a concrete
whale with disappearance counts 1 ≤ 5. -/
theorem c7_total_score_monotone_witness :
    let w : TrackedWhale :=
      { whale_id := "E_ask_3000_9", symbol := "ETHUSDT", side := "ask",
        initial_price := 3000, initial_size := 10, initial_value_usd := 30000,
        first_seen := 0, last_seen := 25, current_price := 3000, current_size := 10,
        current_value_usd := 30000, size_changes := [], price_moves := [],
        disappearances := 0, total_duration := 0, max_size_seen := 10, min_size_seen := 10,
        mid_price_on_appearance := 2990, percentage_of_book := 0, level := 0 }
    (calculate_spoof_score [] { w with disappearances := 1 } "ETHUSDT" 25 2990).total_score ≤
    (calculate_spoof_score [] { w with disappearances := 5 } "ETHUSDT" 25 2990).total_score :=
  c7_total_score_monotone [] _ "ETHUSDT" 25 2990 1 5 (by norm_num)

/-! ## Claim C1: the disappear/reappear lifecycle

Scenario: a whale is created on `"BTC"`/`"bid"` at price 100, size 50 at
time `t1`; the next snapshot contains no whales, so it is marked
disappeared; it reappears at time `t3` with price `p2` and size `s2`
inside the looser (2x) tolerances and within the 300s memory window. -/

def c1_create (t1 : ℚ) : String × WhaleTracker :=
  identify_whale WhaleTracker.init t1 "BTC" "bid" 100 50 5000 0 0 0

def c1_after_disappear (t1 : ℚ) : WhaleTracker :=
  process_snapshot_whales (c1_create t1).2 "BTC" []

def c1_reappear (t1 t3 p2 s2 v2 : ℚ) : String × WhaleTracker :=
  identify_whale (c1_after_disappear t1) t3 "BTC" "bid" p2 s2 v2 0 0 0

/-- Claim C1 counterexample: after one disappearance (at which point the
claim says the counter is still 0) the whale in the recent buffer already
has `disappearances = 1`, and after the reactivation that completes one
disappear-reappear cycle (claim: exactly 1) it has `disappearances = 2`;
the id is preserved. -/
theorem c1_counterexample :
    (((alookup (c1_after_disappear 1000).recent_whales "BTC").getD []).map
      TrackedWhale.disappearances) = [1] ∧ (1 : ℕ) ≠ 0 ∧
    (c1_reappear 1000 1020 100 50 5000).1 = (c1_create 1000).1 ∧
    (((alookup (c1_reappear 1000 1020 100 50 5000).2.active_whales "BTC").getD []).map
      (fun p => p.2.disappearances)) = [2] ∧ (2 : ℕ) ≠ 1 := by
  refine ⟨?_, by norm_num, ?_, ?_, by norm_num⟩ <;>
    norm_num [c1_create, c1_after_disappear, c1_reappear, identify_whale, WhaleTracker.init,
      alookup, aset, _match_active_whale, _match_recent_whale, _create_new_whale,
      find_active_match, matches_active, matches_recent, _reactivate_whale,
      process_snapshot_whales, TrackedWhale.mark_disappeared, TrackedWhale.update,
      _is_likely_spoof]

/-- Claim C1 (amended): a whale that disappears and reappears within the
memory window with price/size inside the looser (2x) tolerances is
reactivated under the same id, but its `disappearances` counter is
incremented twice per disappear-reappear cycle: once by
`mark_disappeared` when `process_snapshot_whales` moves it to the recent
buffer (counter 1), and once more by `_reactivate_whale` (counter 2). -/
theorem c1_reactivation_double_increment (t1 t3 p2 s2 v2 : ℚ)
    (hgap : t3 - t1 < 300)
    (hp : |p2 - 100| / 100 < 1 / 500)
    (hs : |s2 - 50| / 50 < 2 / 5) :
    (((alookup (c1_after_disappear t1).recent_whales "BTC").getD []).map
      TrackedWhale.disappearances) = [1] ∧
    (c1_reappear t1 t3 p2 s2 v2).1 = (c1_create t1).1 ∧
    (((alookup (c1_reappear t1 t3 p2 s2 v2).2.active_whales "BTC").getD []).map
      (fun p => p.2.disappearances)) = [2] := by
  refine ⟨?_, ?_, ?_⟩ <;>
    norm_num [c1_create, c1_after_disappear, c1_reappear, identify_whale, WhaleTracker.init,
      alookup, aset, _match_active_whale, _match_recent_whale, _create_new_whale,
      find_active_match, matches_active, matches_recent, _reactivate_whale,
      process_snapshot_whales, TrackedWhale.mark_disappeared, TrackedWhale.update,
      _is_likely_spoof, hgap, hp, hs]

/-- Claim C1 witness: the amended lifecycle at `t1 = 1000`, `t3 = 1020`
with an identical reappearance. -/
theorem c1_reactivation_double_increment_witness :
    (((alookup (c1_after_disappear 1000).recent_whales "BTC").getD []).map
      TrackedWhale.disappearances) = [1] ∧
    (c1_reappear 1000 1020 100 50 5000).1 = (c1_create 1000).1 ∧
    (((alookup (c1_reappear 1000 1020 100 50 5000).2.active_whales "BTC").getD []).map
      (fun p => p.2.disappearances)) = [2] :=
  c1_reactivation_double_increment 1000 1020 100 50 5000
    (by norm_num) (by norm_num) (by norm_num)

/-! ## Claim C2: accumulated duration across a full double lifecycle

Scenario: create at `t1`, refresh at `t2`, disappear; reactivate at `t3`
(within the window), refresh at `t4`, disappear again.  All observations
use the identical price 100 / size 50, so every matching step succeeds
trivially.  Explicit intermediate states keep each step small. -/

def c2_create (t1 : ℚ) : String × WhaleTracker :=
  identify_whale WhaleTracker.init t1 "BTC" "bid" 100 50 5000 0 0 0

def c2_refresh (t1 t2 : ℚ) : String × WhaleTracker :=
  identify_whale (c2_create t1).2 t2 "BTC" "bid" 100 50 5000 0 0 0

def c2_gone1 (t1 t2 : ℚ) : WhaleTracker :=
  process_snapshot_whales (c2_refresh t1 t2).2 "BTC" []

def c2_reactivate (t1 t2 t3 : ℚ) : String × WhaleTracker :=
  identify_whale (c2_gone1 t1 t2) t3 "BTC" "bid" 100 50 5000 0 0 0

def c2_refresh2 (t1 t2 t3 t4 : ℚ) : String × WhaleTracker :=
  identify_whale (c2_reactivate t1 t2 t3).2 t4 "BTC" "bid" 100 50 5000 0 0 0

def c2_gone2 (t1 t2 t3 t4 : ℚ) : WhaleTracker :=
  process_snapshot_whales (c2_refresh2 t1 t2 t3 t4).2 "BTC" []

def c2_wid (t1 : ℚ) : String :=
  "BTC" ++ "_" ++ "bid" ++ "_" ++ toString (pyInt 100) ++ "_" ++ toString (pyInt (t1 * 1000))

def c2_whale0 (t1 : ℚ) : TrackedWhale :=
  { whale_id := c2_wid t1, symbol := "BTC", side := "bid", initial_price := 100,
    initial_size := 50, initial_value_usd := 5000, first_seen := t1, last_seen := t1,
    current_price := 100, current_size := 50, current_value_usd := 5000,
    size_changes := [], price_moves := [], disappearances := 0, total_duration := 0,
    max_size_seen := 50, min_size_seen := 50, mid_price_on_appearance := 0,
    percentage_of_book := 0, level := 0 }

def c2_whale1 (t1 t2 : ℚ) : TrackedWhale := { c2_whale0 t1 with last_seen := t2 }

def c2_whale2 (t1 t2 : ℚ) : TrackedWhale :=
  { c2_whale1 t1 t2 with disappearances := 1, total_duration := t2 - t1 }

def c2_whale3 (t1 t2 t3 : ℚ) : TrackedWhale :=
  { c2_whale2 t1 t2 with disappearances := 2, last_seen := t3 }

def c2_whale4 (t1 t2 t3 t4 : ℚ) : TrackedWhale :=
  { c2_whale3 t1 t2 t3 with last_seen := t4 }

def c2_state0 (t1 : ℚ) : WhaleTracker :=
  { price_tolerance := 1/1000, size_tolerance := 1/5, memory_seconds := 300,
    active_whales := [("BTC", [(c2_wid t1, c2_whale0 t1)])],
    whale_index := [("BTC", [("bid", [c2_wid t1]), ("ask", [])])],
    recent_whales := [("BTC", [])], whale_history := [],
    total_whales_tracked := 1, total_spoofs_detected := 0 }

def c2_state1 (t1 t2 : ℚ) : WhaleTracker :=
  { c2_state0 t1 with active_whales := [("BTC", [(c2_wid t1, c2_whale1 t1 t2)])] }

def c2_state2 (t1 t2 : ℚ) : WhaleTracker :=
  { c2_state0 t1 with
    active_whales := [("BTC", [])],
    recent_whales := [("BTC", [c2_whale2 t1 t2])],
    whale_history := [c2_whale2 t1 t2] }

def c2_state3 (t1 t2 t3 : ℚ) : WhaleTracker :=
  { c2_state0 t1 with
    active_whales := [("BTC", [(c2_wid t1, c2_whale3 t1 t2 t3)])],
    recent_whales := [("BTC", [])],
    whale_history := [c2_whale2 t1 t2] }

def c2_state4 (t1 t2 t3 t4 : ℚ) : WhaleTracker :=
  { c2_state3 t1 t2 t3 with
    active_whales := [("BTC", [(c2_wid t1, c2_whale4 t1 t2 t3 t4)])] }

theorem c2_step0 (t1 : ℚ) : c2_create t1 = (c2_wid t1, c2_state0 t1) := by
  norm_num [c2_create, identify_whale, WhaleTracker.init, alookup, aset,
    _match_active_whale, _match_recent_whale, _create_new_whale, find_active_match,
    matches_active, matches_recent, _reactivate_whale, c2_wid, c2_whale0, c2_state0]

theorem c2_step1 (t1 t2 : ℚ) : c2_refresh t1 t2 = (c2_wid t1, c2_state1 t1 t2) := by
  rw [c2_refresh, c2_step0]
  norm_num [identify_whale, alookup, aset, _match_active_whale, _match_recent_whale,
    find_active_match, matches_active, TrackedWhale.update,
    c2_wid, c2_whale0, c2_whale1, c2_state0, c2_state1]

theorem c2_step2 (t1 t2 : ℚ) : c2_gone1 t1 t2 = c2_state2 t1 t2 := by
  rw [c2_gone1, c2_step1]
  norm_num [process_snapshot_whales, alookup, aset, TrackedWhale.mark_disappeared,
    _is_likely_spoof, c2_whale0, c2_whale1, c2_whale2, c2_state0, c2_state1, c2_state2]

theorem c2_step3 (t1 t2 t3 : ℚ) (hgap : t3 - t2 < 300) :
    c2_reactivate t1 t2 t3 = (c2_wid t1, c2_state3 t1 t2 t3) := by
  rw [c2_reactivate, c2_step2]
  norm_num [identify_whale, alookup, aset, _match_active_whale, _match_recent_whale,
    find_active_match, matches_active, matches_recent, _reactivate_whale,
    TrackedWhale.update, hgap,
    c2_whale0, c2_whale1, c2_whale2, c2_whale3, c2_state0, c2_state2, c2_state3]

theorem c2_step4 (t1 t2 t3 t4 : ℚ) (hgap : t3 - t2 < 300) :
    c2_refresh2 t1 t2 t3 t4 = (c2_wid t1, c2_state4 t1 t2 t3 t4) := by
  rw [c2_refresh2, c2_step3 t1 t2 t3 hgap]
  norm_num [identify_whale, alookup, aset, _match_active_whale, _match_recent_whale,
    find_active_match, matches_active, TrackedWhale.update,
    c2_whale0, c2_whale1, c2_whale2, c2_whale3, c2_whale4,
    c2_state0, c2_state3, c2_state4]

/-- Claim C2 counterexample: with `t1..t4 = 1000, 1010, 1020, 1030` the
two active intervals are 10s each (sum 20), but the accumulated
`total_duration` after the second disappearance is 40: `first_seen` is
never reset on reactivation, so the second `mark_disappeared` adds
`t4 - t1 = 30`, re-counting the first interval and the off-book gap. -/
theorem c2_counterexample :
    (((alookup (c2_gone2 1000 1010 1020 1030).recent_whales "BTC").getD []).map
      TrackedWhale.total_duration) = [40] ∧
    ((1010 : ℚ) - 1000) + ((1030 : ℚ) - 1020) = 20 ∧ (40 : ℚ) ≠ 20 := by
  refine ⟨?_, by norm_num, by norm_num⟩
  rw [c2_gone2, c2_step4 1000 1010 1020 1030 (by norm_num)]
  norm_num [process_snapshot_whales, alookup, aset, TrackedWhale.mark_disappeared,
    _is_likely_spoof, c2_whale0, c2_whale1, c2_whale2, c2_whale3, c2_whale4,
    c2_state0, c2_state3, c2_state4]

/-- Claim C2 (amended): each disappearance adds `last_seen - first_seen`
with `first_seen` fixed at the whale's creation time (it is not reset on
reactivation), so after the lifecycle with active intervals `[t1, t2]`
and `[t3, t4]` the accumulated duration is `(t2 - t1) + (t4 - t1)` — the
second summand spans both the first interval and the off-book gap — not
the claimed sum of the two active intervals. -/
theorem c2_total_duration_overcount (t1 t2 t3 t4 : ℚ) (hgap : t3 - t2 < 300) :
    (((alookup (c2_gone1 t1 t2).recent_whales "BTC").getD []).map
      TrackedWhale.total_duration) = [t2 - t1] ∧
    (((alookup (c2_gone2 t1 t2 t3 t4).recent_whales "BTC").getD []).map
      TrackedWhale.total_duration) = [t2 - t1 + (t4 - t1)] := by
  constructor
  · rw [c2_step2]
    norm_num [alookup, c2_state2, c2_state0, c2_whale2, c2_whale1, c2_whale0]
  · rw [c2_gone2, c2_step4 t1 t2 t3 t4 hgap]
    norm_num [process_snapshot_whales, alookup, aset, TrackedWhale.mark_disappeared,
      c2_whale0, c2_whale1, c2_whale2, c2_whale3, c2_whale4,
      c2_state0, c2_state3, c2_state4]

/-- Claim C2 witness: the amended statement at `t1..t4 = 1000, 1010,
1100, 1110`. -/
theorem c2_total_duration_overcount_witness :
    (((alookup (c2_gone1 1000 1010).recent_whales "BTC").getD []).map
      TrackedWhale.total_duration) = [(1010 : ℚ) - 1000] ∧
    (((alookup (c2_gone2 1000 1010 1100 1110).recent_whales "BTC").getD []).map
      TrackedWhale.total_duration) = [(1010 : ℚ) - 1000 + ((1110 : ℚ) - 1000)] :=
  c2_total_duration_overcount 1000 1010 1100 1110 (by norm_num)

/-! ## Claim C3: growth of the recent buffer and the historical log -/

def c3_run1 : WhaleTracker :=
  process_snapshot_whales
    (identify_whale WhaleTracker.init 1000 "BTC" "bid" 100 50 5000 0 0 0).2 "BTC" []

def c3_run2 : WhaleTracker :=
  process_snapshot_whales
    (identify_whale c3_run1 1002 "BTC" "bid" 200 50 10000 0 0 0).2 "BTC" []

/-- Claim C3 counterexample: the tracker has no configured capacity for
the recently-disappeared buffer or the historical log; after two
disappearance events within the memory window both hold 2 entries, which
already exceeds a configured capacity of 1, and nothing ever removes
entries from the historical log. -/
theorem c3_counterexample :
    ((alookup c3_run2.recent_whales "BTC").getD []).length = 2 ∧
    c3_run2.whale_history.length = 2 ∧ ¬((2 : ℕ) ≤ 1) := by
  have habs : |(100 : ℚ)| = 100 := abs_of_pos (by norm_num)
  refine ⟨?_, ?_, by norm_num⟩ <;>
    norm_num [c3_run1, c3_run2, identify_whale, WhaleTracker.init, alookup, aset,
      _match_active_whale, _match_recent_whale, _create_new_whale, find_active_match,
      matches_active, matches_recent, _reactivate_whale, process_snapshot_whales,
      TrackedWhale.mark_disappeared, TrackedWhale.update, _is_likely_spoof, habs]

/-- Claim C3 (amended): there is no capacity bound.  Every call of
`process_snapshot_whales` grows the symbol's recently-disappeared buffer
and the historical log by exactly the number of active whales missing
from the snapshot (no eviction); the only removal is the time purge in
`_match_recent_whale`, after which every entry of the buffer is within
the memory window.  All of these operations are total (never throw). -/
theorem c3_no_capacity_time_purge_only (t : WhaleTracker) (symbol : String)
    (ids : List String) :
    ((alookup (process_snapshot_whales t symbol ids).recent_whales symbol).getD []).length =
      ((alookup t.recent_whales symbol).getD []).length +
        (((alookup t.active_whales symbol).getD []).filter
          (fun p => decide (p.1 ∉ ids))).length ∧
    (process_snapshot_whales t symbol ids).whale_history.length =
      t.whale_history.length +
        (((alookup t.active_whales symbol).getD []).filter
          (fun p => decide (p.1 ∉ ids))).length ∧
    ∀ (now price size : ℚ) (side : String),
      ∀ w ∈ (alookup (_match_recent_whale t now symbol side price size).1.recent_whales
          symbol).getD [],
        now - w.last_seen < t.memory_seconds := by
  have hf : ∀ x : String × TrackedWhale,
      ((fun p => if p.1 ∈ ids then p else (p.1, p.2.mark_disappeared)) x).1 = x.1 := by
    intro x
    by_cases hx : x.1 ∈ ids <;> simp [hx]
  refine ⟨?_, ?_, ?_⟩
  · unfold process_snapshot_whales
    cases h : alookup t.active_whales symbol with
    | none => simp [h]
    | some active =>
      simp only [h, Option.getD_some, alookup_aset_self, Option.getD_some,
        List.length_append, List.length_map]
      rw [length_filter_fst_map active _ (fun a => decide (a ∉ ids)) hf]
  · unfold process_snapshot_whales
    cases h : alookup t.active_whales symbol with
    | none => simp [h]
    | some active =>
      simp only [h, Option.getD_some, List.length_append, List.length_map]
      rw [length_filter_fst_map active _ (fun a => decide (a ∉ ids)) hf]
  · intro now price size side w hw
    have hw2 : w ∈ ((alookup t.recent_whales symbol).getD []).filter
        (fun x => decide (now - x.last_seen < t.memory_seconds)) := by
      simpa [_match_recent_whale, alookup_aset_self] using hw
    exact of_decide_eq_true (List.mem_filter.mp hw2).2

/-- Claim C3 witness: the amended statement on the empty tracker. -/
theorem c3_no_capacity_time_purge_only_witness :
    ((alookup (process_snapshot_whales WhaleTracker.init "BTC" []).recent_whales
        "BTC").getD []).length =
      ((alookup WhaleTracker.init.recent_whales "BTC").getD []).length +
        (((alookup WhaleTracker.init.active_whales "BTC").getD []).filter
          (fun p => decide (p.1 ∉ ([] : List String)))).length ∧
    (process_snapshot_whales WhaleTracker.init "BTC" []).whale_history.length =
      WhaleTracker.init.whale_history.length +
        (((alookup WhaleTracker.init.active_whales "BTC").getD []).filter
          (fun p => decide (p.1 ∉ ([] : List String)))).length ∧
    ∀ (now price size : ℚ) (side : String),
      ∀ w ∈ (alookup (_match_recent_whale WhaleTracker.init now "BTC" side
          price size).1.recent_whales "BTC").getD [],
        now - w.last_seen < WhaleTracker.init.memory_seconds :=
  c3_no_capacity_time_purge_only WhaleTracker.init "BTC" []

/-! ## Claim C4: id generation collisions -/

def c4_run1 : String × WhaleTracker :=
  identify_whale WhaleTracker.init 1000 "BTCUSDT" "bid" (501/5) 50 5010 0 0 0

def c4_run2 : String × WhaleTracker :=
  identify_whale c4_run1.2 1000 "BTCUSDT" "bid" (503/5) 50 5030 0 0 0

/-- Claim C4 at its failing input: two whales created on the same symbol
and side in the same millisecond (`time.time() = 1000`) at prices 100.2
and 100.6 — further apart than the 0.1% matching tolerance, so the second
observation does not match the first whale and a second creation runs —
receive the identical id `f"BTCUSDT_bid_{int(price)}_{timestamp}"`
(`int` truncates both prices to 100), and the second whale silently
overwrites the first in the active table even though two whales were
counted. -/
theorem c4_same_millisecond_id_collision :
    c4_run1.1 = c4_run2.1 ∧
    |(503 : ℚ)/5 - 501/5| / (501/5) > (1/1000 : ℚ) ∧
    c4_run2.2.total_whales_tracked = 2 ∧
    ((alookup c4_run2.2.active_whales "BTCUSDT").getD []).length = 1 := by
  have hp : pyInt ((503 : ℚ)/5) = pyInt ((501 : ℚ)/5) := by
    norm_num [pyInt]
  have habs : |(2 : ℚ)/5| = 2/5 := abs_of_pos (by norm_num)
  have habs2 : |(503 : ℚ)/5 - 501/5| = 2/5 := by
    rw [show (503 : ℚ)/5 - 501/5 = 2/5 by norm_num]
    exact habs
  refine ⟨?_, by rw [habs2]; norm_num, ?_, ?_⟩ <;>
    norm_num [c4_run1, c4_run2, identify_whale, WhaleTracker.init, alookup, aset,
      _match_active_whale, _match_recent_whale, _create_new_whale, find_active_match,
      matches_active, matches_recent, _reactivate_whale, hp, habs, habs2]

end SpoofingAnalytics
